import Mathlib

/-!
Verification of the pyrainbird `RainbirdController` core
(`pyrainbird/__init__.py`): the command dispatcher, the response-type
projection, the zone/sensor state cache, and the bitmask zone state.

External collaborators of the core (the codec `rainbird.encode` /
`rainbird.decode`, the static command table `RAIBIRD_COMMANDS`, and the
transport `RainbirdClient.request`) are modelled as an abstract
environment `Env` of total functions; the `States` bitmask class and the
`_DEFAULT_PAGE` constant live in `pyrainbird/data.py`, which is not part
of the dispatched source, so they are modelled from the specification.

Python `None` results are embedded as distinguished constructors
(`CommandResult.noResponse`, `ProcessResult.noResponse`) or `Option`
values; the exception raised by `RainbirdController.command` on a status
code mismatch is embedded as the `mismatch` constructor carrying the
same three diagnostics the exception message carries. Wall-clock time
(`time.time()`) is passed explicitly as a rational `now`; a single call
uses one time value.
-/

namespace PyRainbird

/-- Modelled from the spec: the decoded field mapping produced by
`rainbird.decode` (external codec, not in the dispatched source). Per
the spec it always contains a `"type"` key identifying the decoded
variant; the remaining fields are integer-valued and accessed by name. -/
structure Mapping where
  type : String
  fields : String → Nat

/-- Modelled from the spec: the slice of the static protocol table
`RAIBIRD_COMMANDS` (in `pyrainbird/rainbird.py`, not in the dispatched
source) that the core reads: per command name the request byte length
(`["ControllerCommands"][cmd + "Request"]["length"]`), the expected
response status code (`...["response"]`), and per response code the
response type tag (`["ControllerResponses"][code]["type"]`). -/
structure CommandTable where
  reqLength : String → Nat
  respCode : String → String
  respType : String → String

/-- The external collaborators a single dispatch uses: the command
table, the codec pair, and the transport. `transport data len` models
`RainbirdClient.request(data, len)`; `none` is the empty (timeout)
result that Python signals as `None`. -/
structure Env where
  table : CommandTable
  encode : String → List Nat → String
  decode : String → Mapping
  transport : String → Nat → Option String

/-- Python string slicing `s[:2]`, on the logical character list. -/
def take2 (s : String) : String :=
  ⟨s.data.take 2⟩

/-- Outcome of `RainbirdController.command`: `noResponse` is the `None`
return on an empty transport result, `mismatch` is the exception raised
on a status-code mismatch (carrying the expected code, the actual code,
and the decoded payload, exactly as the exception message does), and
`ok` is a normal return of the decoded mapping. -/
inductive CommandResult where
  | noResponse
  | mismatch (expected actual : String) (decoded : Mapping)
  | ok (decoded : Mapping)

/-- Embedding of `RainbirdController.command`: encode the request, hand it with the
table's declared length to the transport, return `noResponse` when the
transport yields nothing, otherwise decode and compare the first two
characters of the raw response with the table's expected response code,
failing with `mismatch` when they differ. -/
def command (env : Env) (cmd : String) (args : List Nat) : CommandResult :=
  let data := env.encode cmd args
  match env.transport data (env.table.reqLength cmd) with
  | none => .noResponse
  | some decrypted =>
      let decoded := env.decode decrypted
      if take2 decrypted = env.table.respCode cmd then
        .ok decoded
      else
        .mismatch (env.table.respCode cmd) (take2 decrypted) decoded

/-- Outcome of `RainbirdController._process_command`: the `None`
pass-through, the propagated mismatch exception, the typed projection
`funct response`, or the raw decoded mapping returned unchanged on a
response-type tag mismatch. -/
inductive ProcessResult (α : Type) where
  | noResponse
  | mismatch (expected actual : String) (decoded : Mapping)
  | typed (v : α)
  | raw (decoded : Mapping)

/-- Embedding of `RainbirdController._process_command`: dispatch via `command`; when
a mapping came back and its `"type"` tag equals the type tag the table
associates with the command's expected response code, apply `funct`;
otherwise return the response unchanged (`None` stays `None`, a raw
mapping stays raw); a raised mismatch propagates. -/
def processCommand {α : Type} (env : Env) (funct : Mapping → α)
    (cmd : String) (args : List Nat) : ProcessResult α :=
  match command env cmd args with
  | .noResponse => .noResponse
  | .mismatch e a d => .mismatch e a d
  | .ok m =>
      if m.type = env.table.respType (env.table.respCode cmd) then
        .typed (funct m)
      else
        .raw m

/-- C1: with a decoded mapping in hand, `_process_command` applies the
mapping function exactly when the mapping's type tag equals the table's
response type tag for the command's expected response code, and returns
the raw mapping unchanged when the tags differ. -/
theorem processCommand_type_projection {α : Type} (env : Env)
    (funct : Mapping → α) (cmd : String) (args : List Nat) (m : Mapping)
    (h : command env cmd args = .ok m) :
    (m.type = env.table.respType (env.table.respCode cmd) →
      processCommand env funct cmd args = .typed (funct m)) ∧
    (m.type ≠ env.table.respType (env.table.respCode cmd) →
      processCommand env funct cmd args = .raw m) := by
  unfold processCommand
  rw [h]
  constructor
  · intro ht
    simp [ht]
  · intro ht
    simp [ht]

/-- A command table where every command expects response code "82" of
type tag "T", used to instantiate the dispatch theorems. -/
def tableW : CommandTable :=
  { reqLength := fun _ => 2
    respCode := fun _ => "82"
    respType := fun _ => "T" }

/-- A concrete decoded mapping with the matching type tag "T". -/
def mappingW : Mapping :=
  { type := "T", fields := fun f => if f = "modelID" then 5 else 0 }

/-- A concrete environment whose transport answers with a response whose
first two characters match the expected code "82". -/
def envW : Env :=
  { table := tableW
    encode := fun _ _ => "02"
    decode := fun _ => mappingW
    transport := fun _ _ => some "8200" }

theorem processCommand_type_projection_witness :
    processCommand envW (fun m => m.fields "modelID") "ModelAndVersion" []
      = .typed 5 :=
  (processCommand_type_projection envW (fun m => m.fields "modelID")
    "ModelAndVersion" [] mappingW rfl).1 rfl

/-- C2: when the transport yields a non-empty response whose first two
characters differ from the table's expected response code, `command`
fails with the mismatch condition carrying the expected code, the actual
code and the decoded payload, and no decoded mapping is returned. -/
theorem command_protocol_mismatch (env : Env) (cmd : String)
    (args : List Nat) (data : String)
    (h1 : env.transport (env.encode cmd args) (env.table.reqLength cmd)
            = some data)
    (_h2 : data ≠ "")
    (h3 : take2 data ≠ env.table.respCode cmd) :
    command env cmd args
        = .mismatch (env.table.respCode cmd) (take2 data) (env.decode data)
      ∧ ∀ m : Mapping, command env cmd args ≠ .ok m := by
  simp only [command, h1]
  simp [h3]

/-- A concrete environment whose transport answers with a response whose
first two characters "FF" differ from the expected code "82". -/
def envMismatchW : Env :=
  { table := tableW
    encode := fun _ _ => "02"
    decode := fun _ => mappingW
    transport := fun _ _ => some "FF00" }

theorem command_protocol_mismatch_witness :
    command envMismatchW "ModelAndVersion" []
      = .mismatch "82" (take2 "FF00") (envMismatchW.decode "FF00") :=
  (command_protocol_mismatch envMismatchW "ModelAndVersion" [] "FF00"
    rfl (by decide) (by decide)).1

/-- C3: when the transport yields no response, `command` signals the
no-response condition and `_process_command` propagates it unchanged:
the mapping function is never applied and neither a typed value nor a
raw mapping is returned in its place. -/
theorem dispatch_no_response {α : Type} (env : Env) (funct : Mapping → α)
    (cmd : String) (args : List Nat)
    (h : env.transport (env.encode cmd args) (env.table.reqLength cmd)
           = none) :
    command env cmd args = .noResponse ∧
    processCommand env funct cmd args = .noResponse ∧
    (∀ v : α, processCommand env funct cmd args ≠ .typed v) ∧
    (∀ m : Mapping, processCommand env funct cmd args ≠ .raw m) := by
  have hc : command env cmd args = .noResponse := by
    simp only [command, h]
  refine ⟨hc, ?_, ?_, ?_⟩
  · unfold processCommand
    rw [hc]
  · intro v
    unfold processCommand
    rw [hc]
    simp
  · intro m
    unfold processCommand
    rw [hc]
    simp

/-- A concrete environment whose transport yields no response. -/
def envNoneW : Env :=
  { table := tableW
    encode := fun _ _ => "02"
    decode := fun _ => mappingW
    transport := fun _ _ => none }

theorem dispatch_no_response_witness :
    processCommand envNoneW (fun _ => (5 : Nat)) "SerialNumber" []
      = .noResponse :=
  (dispatch_no_response envNoneW (fun _ => (5 : Nat)) "SerialNumber" []
    rfl).2.1

/-- Value of one hexadecimal digit character (0 for a non-digit; all
characters fed to it in this development are hexadecimal digits). -/
def hexVal (c : Char) : Nat :=
  if '0' ≤ c ∧ c ≤ '9' then c.toNat - '0'.toNat
  else if 'A' ≤ c ∧ c ≤ 'F' then c.toNat - 'A'.toNat + 10
  else if 'a' ≤ c ∧ c ≤ 'f' then c.toNat - 'a'.toNat + 10
  else 0

/-- Modelled from the spec: one hexadecimal digit expands to its 4 bits,
most-significant bit first. -/
def hexDigitBits (c : Char) : List Bool :=
  [(hexVal c).testBit 3, (hexVal c).testBit 2,
   (hexVal c).testBit 1, (hexVal c).testBit 0]

/-- Modelled from the spec: the `States` bitmask class of
`pyrainbird/data.py` (not in the dispatched source), reduced to the
attribute the core reads — the ordered sequence of boolean zone flags
obtained by expanding the hex mask digit by digit, 4 bits per digit,
most-significant bit first within each digit. -/
structure States where
  states : List Bool
deriving DecidableEq

/-- Modelled from the spec: the `States(mask)` constructor on a
hex-digit string, given here by its character list. -/
def statesOfHex (s : List Char) : States :=
  ⟨(s.map hexDigitBits).flatten⟩

/-- Modelled from the spec: `States.active(z)` answers the bit at
position `z` of the expanded sequence (out-of-range behaviour is left
open by the spec; inactive is used here and no theorem depends on it). -/
def States.active (st : States) (z : Nat) : Bool :=
  st.states.getD z false

/-- Character of one hexadecimal digit value, uppercase as `"%X"`. -/
def hexChar (n : Nat) : Char :=
  "0123456789ABCDEF".data.getD n '0'

/-- Fuel-indexed helper for the hexadecimal rendering; `fuel ≥ n`
suffices for the recursion to bottom out, and every result lists the
digits most significant first. -/
def hexDigitsAux : Nat → Nat → List Char
  | 0, n => [hexChar n]
  | fuel + 1, n =>
      if n < 16 then [hexChar n]
      else hexDigitsAux fuel (n / 16) ++ [hexChar (n % 16)]

/-- Uppercase hexadecimal digit characters of a natural number, as
`"%X"` renders it (most significant digit first, `0` rendered "0"). -/
def hexDigits (n : Nat) : List Char :=
  hexDigitsAux n n

/-- The Python format `"%08X" % n`: the uppercase hexadecimal rendering
zero-padded on the left to at least eight characters. -/
def hex8 (n : Nat) : List Char :=
  List.replicate (8 - (hexDigits n).length) '0' ++ hexDigits n

/-- The slice `("%08X" % n)[:2]`: the first two characters of the
zero-padded rendering, i.e. its most significant byte. -/
def msByte (n : Nat) : List Char :=
  (hex8 n).take 2

/-- Modelled from the spec: `_DEFAULT_PAGE` from `pyrainbird/data.py`
(not in the dispatched source); the concrete value is immaterial to
every claim. -/
def defaultPage : Nat := 0

/-- The mutable fields of `RainbirdController` that the state cache
owns: the cached zone bitmask, the cached rain-sensor flag, the
staleness window, and the two last-update timestamps. Wall-clock times
are rationals; `none` is Python `None`. -/
structure Controller where
  zones : States
  rain_sensor : Option Bool
  update_delay : ℚ
  zone_update_time : Option ℚ
  sensor_update_time : Option ℚ
deriving DecidableEq

/-- Embedding of `RainbirdController.__init__`: zones start at `States("00")`, the
sensor flag and both timestamps start at `None`. -/
def initController (update_delay : ℚ) : Controller :=
  { zones := statesOfHex "00".data
    rain_sensor := none
    update_delay := update_delay
    zone_update_time := none
    sensor_update_time := none }

/-- Embedding of `_check_delay(update_time, update_delay)`: true (stale) when the
timestamp is `None` or the current time exceeds timestamp plus delay. -/
def check_delay (update_time : Option ℚ) (update_delay : ℚ) (now : ℚ) :
    Bool :=
  match update_time with
  | none => true
  | some t => decide (t + update_delay < now)

/-- The mapping function `_update_irrigation_state` passes to
`_process_command`: `States(("%08X" % resp["activeStations"])[:2])`. -/
def stationsActiveMap (m : Mapping) : States :=
  statesOfHex (msByte (m.fields "activeStations"))

/-- Embedding of `RainbirdController._update_irrigation_state`: dispatch
`CurrentStationsActive`, store the typed result into `zones` when one
was obtained, and return the `_process_command` result either way. -/
def update_irrigation_state (env : Env) (page : Nat) (c : Controller) :
    ProcessResult States × Controller :=
  match processCommand env stationsActiveMap "CurrentStationsActive" [page] with
  | .typed st => (.typed st, { c with zones := st })
  | r => (r, c)

/-- Outcome of a public controller operation: a normal return of a
value, or the uncaught protocol-mismatch exception propagating to the
caller (carrying the expected code, the actual code and the decoded
payload, as the raised exception does); in the latter case no value is
returned to the caller. There is no try/except anywhere in the module,
so a mismatch raised during a dispatch aborts the operation before any
subsequent statement runs. -/
inductive OpOutcome (α : Type) where
  | ret (v : α)
  | exn (expected actual : String) (decoded : Mapping)

/-- Embedding of `RainbirdController.get_zone_state(zone, page)`: on a stale cache,
refresh via `_update_irrigation_state`. A protocol mismatch raised by
the refresh dispatch propagates with the controller state untouched.
Otherwise, when no typed result came back (`None` or a raw mapping),
reset `zones` to `States("00")` and return `None` (the timestamp is
not touched); on success stamp the time and fall through to the cached
bitmask. The third component records whether a dispatch was issued. -/
def get_zone_state (env : Env) (now : ℚ) (c : Controller)
    (zone page : Nat) : OpOutcome (Option Bool) × Controller × Bool :=
  if check_delay c.zone_update_time c.update_delay now then
    match update_irrigation_state env page c with
    | (.typed _, c1) =>
        (.ret (some (c1.zones.active zone)),
         { c1 with zone_update_time := some now }, true)
    | (.mismatch e a d, c1) => (.exn e a d, c1, true)
    | (.noResponse, c1) =>
        (.ret none, { c1 with zones := statesOfHex "00".data }, true)
    | (.raw _, c1) =>
        (.ret none, { c1 with zones := statesOfHex "00".data }, true)
  else
    (.ret (some (c.zones.active zone)), c, false)

/-- The mapping function of `get_rain_sensor_state`:
`bool(resp["sensorState"])`. -/
def sensorStateMap (m : Mapping) : Bool :=
  decide (m.fields "sensorState" ≠ 0)

/-- Embedding of `RainbirdController.get_rain_sensor_state()`: on a stale cache,
dispatch `CurrentRainSensorState`. A protocol mismatch raised by the
dispatch propagates with the controller state untouched. Otherwise
store the boolean and stamp the time when a typed result came back, or
reset the cached flag to `None` (the timestamp is not touched) when
the result was `None` or a raw mapping; return the cached flag. The
third component records whether a dispatch was issued. -/
def get_rain_sensor_state (env : Env) (now : ℚ) (c : Controller) :
    OpOutcome (Option Bool) × Controller × Bool :=
  if check_delay c.sensor_update_time c.update_delay now then
    match processCommand env sensorStateMap "CurrentRainSensorState" [] with
    | .typed b =>
        (.ret (some b),
         { c with rain_sensor := some b, sensor_update_time := some now },
         true)
    | .mismatch e a d => (.exn e a d, c, true)
    | .noResponse => (.ret none, { c with rain_sensor := none }, true)
    | .raw _ => (.ret none, { c with rain_sensor := none }, true)
  else
    (.ret c.rain_sensor, c, false)

/-- Python `response == True` on a `_process_command` result whose
typed projection is boolean: true exactly for the typed value `True`
(`None` and a raw mapping both compare unequal to `True`). -/
def isTrueResp : ProcessResult Bool → Bool
  | .typed b => b
  | _ => false

/-- Embedding of `RainbirdController.irrigate_zone(zone, minutes)`: dispatch
`ManuallyRunStation`, force a zone refresh, and return whether the
dispatch yielded the typed `True` and the refreshed cached bitmask has
the requested zone active. A protocol mismatch raised by either
dispatch propagates: the first aborts before the refresh runs, the
second aborts before the return statement, both leaving the state at
the point of the raise. The two dispatches consume `env1` and
`env2`. -/
def irrigate_zone (env1 env2 : Env) (c : Controller)
    (zone minutes : Nat) : OpOutcome Bool × Controller :=
  match processCommand env1 (fun _ => true) "ManuallyRunStation"
      [zone, minutes] with
  | .mismatch e a d => (.exn e a d, c)
  | response =>
      match update_irrigation_state env2 defaultPage c with
      | (.mismatch e a d, c1) => (.exn e a d, c1)
      | (_, c1) => (.ret (isTrueResp response && c1.zones.active zone), c1)

/-- Python `reduce(lambda x, y: x or y, l)`: the left fold of
disjunction over a non-empty list (`reduce` without an initial value
raises on an empty list; every bitmask reaching it here has 8 bits). -/
def reduceOr : List Bool → Bool
  | [] => false
  | x :: xs => xs.foldl (fun a b => a || b) x

/-- Embedding of `RainbirdController.stop_irrigation()`: dispatch `StopIrrigation`,
force a zone refresh, and return whether the dispatch yielded the
typed `True` and no bit of the refreshed cached bitmask is set. A
protocol mismatch raised by either dispatch propagates, leaving the
state at the point of the raise and returning nothing. -/
def stop_irrigation (env1 env2 : Env) (c : Controller) :
    OpOutcome Bool × Controller :=
  match processCommand env1 (fun _ => true) "StopIrrigation" [] with
  | .mismatch e a d => (.exn e a d, c)
  | response =>
      match update_irrigation_state env2 defaultPage c with
      | (.mismatch e a d, c1) => (.exn e a d, c1)
      | (_, c1) =>
          (.ret (isTrueResp response && !(reduceOr c1.zones.states)), c1)

example : (statesOfHex "80".data).active 0 = true := by decide

example : (statesOfHex "80".data).active 1 = false := by decide

example : (statesOfHex "00".data).states
    = [false, false, false, false, false, false, false, false] := by decide

example : msByte 0x12345678 = "12".data := by decide

example : check_delay (some 100) 20 110 = false := by
  simp only [check_delay, decide_eq_false_iff_not, not_lt]
  norm_num

example : check_delay (some 100) 20 121 = true := by
  simp only [check_delay, decide_eq_true_eq]
  norm_num

example : check_delay none 20 0 = true := rfl

/-- C4: a cached value is fresh exactly when its timestamp is non-null
and `now ≤ timestamp + update_delay`; on a fresh read both cache reads
return the cached value, change nothing, and issue no dispatch; and a
zone read within `update_delay` of a successful refresh issues no
second dispatch. -/
theorem cache_freshness (env : Env) (c : Controller) (now : ℚ)
    (zone page : Nat) :
    (check_delay c.zone_update_time c.update_delay now = false ↔
      ∃ t, c.zone_update_time = some t ∧ now ≤ t + c.update_delay) ∧
    (check_delay c.zone_update_time c.update_delay now = false →
      get_zone_state env now c zone page
        = (.ret (some (c.zones.active zone)), c, false)) ∧
    (check_delay c.sensor_update_time c.update_delay now = false ↔
      ∃ t, c.sensor_update_time = some t ∧ now ≤ t + c.update_delay) ∧
    (check_delay c.sensor_update_time c.update_delay now = false →
      get_rain_sensor_state env now c = (.ret c.rain_sensor, c, false)) ∧
    (∀ (b : Bool) (c1 : Controller) (env2 : Env) (now2 : ℚ),
      get_zone_state env now c zone page = (.ret (some b), c1, true) →
      now2 ≤ now + c.update_delay →
      get_zone_state env2 now2 c1 zone page
        = (.ret (some (c1.zones.active zone)), c1, false)) := by
  refine ⟨?_, ?_, ?_, ?_, ?_⟩
  · unfold check_delay
    cases c.zone_update_time with
    | none => simp
    | some t => simp [not_lt]
  · intro hf
    simp [get_zone_state, hf]
  · unfold check_delay
    cases c.sensor_update_time with
    | none => simp
    | some t => simp [not_lt]
  · intro hf
    simp [get_rain_sensor_state, hf]
  · intro b c1 env2 now2 h1 h2
    unfold get_zone_state at h1
    by_cases hd : check_delay c.zone_update_time c.update_delay now = true
    · rw [if_pos hd] at h1
      cases hpc : processCommand env stationsActiveMap
          "CurrentStationsActive" [page] with
      | typed st =>
          simp [update_irrigation_state, hpc] at h1
          obtain ⟨-, h1c⟩ := h1
          have hdelay :
              c1.update_delay = c.update_delay := by
            rw [← h1c]
          have htime : c1.zone_update_time = some now := by
            rw [← h1c]
          have hfresh :
              check_delay c1.zone_update_time c1.update_delay now2
                = false := by
            rw [htime, hdelay]
            unfold check_delay
            simpa [not_lt] using h2
          simp [get_zone_state, hfresh]
      | noResponse => simp [update_irrigation_state, hpc] at h1
      | mismatch e a d => simp [update_irrigation_state, hpc] at h1
      | raw m => simp [update_irrigation_state, hpc] at h1
    · rw [if_neg hd] at h1
      simp at h1

/-- A controller whose two caches were refreshed at time 100, holding
zone mask "80" and a sensed-rain flag, with a 20-second window. -/
def cFreshW : Controller :=
  { zones := statesOfHex "80".data
    rain_sensor := some true
    update_delay := 20
    zone_update_time := some 100
    sensor_update_time := some 100 }

theorem cache_freshness_witness :
    get_zone_state envNoneW 110 cFreshW 0 0
      = (.ret (some true), cFreshW, false) :=
  (cache_freshness envNoneW cFreshW 110 0 0).2.1 (by
    simp only [cFreshW, check_delay, decide_eq_false_iff_not, not_lt]
    norm_num)

/-- C10: `get_rain_sensor_state` leaves the zone cache (`zones` and
`zone_update_time`) unchanged, and `get_zone_state` leaves the sensor
cache (`rain_sensor` and `sensor_update_time`) unchanged. -/
theorem cache_frame (env : Env) (c : Controller) (now : ℚ)
    (zone page : Nat) :
    ((get_rain_sensor_state env now c).2.1.zones = c.zones ∧
     (get_rain_sensor_state env now c).2.1.zone_update_time
       = c.zone_update_time) ∧
    ((get_zone_state env now c zone page).2.1.rain_sensor = c.rain_sensor ∧
     (get_zone_state env now c zone page).2.1.sensor_update_time
       = c.sensor_update_time) := by
  constructor
  · unfold get_rain_sensor_state
    by_cases hd : check_delay c.sensor_update_time c.update_delay now = true
    · rw [if_pos hd]
      cases processCommand env sensorStateMap
          "CurrentRainSensorState" [] <;> simp
    · rw [if_neg hd]
      exact ⟨rfl, rfl⟩
  · unfold get_zone_state
    by_cases hd : check_delay c.zone_update_time c.update_delay now = true
    · rw [if_pos hd]
      cases hpc : processCommand env stationsActiveMap
          "CurrentStationsActive" [page] <;>
        simp [update_irrigation_state, hpc]
    · rw [if_neg hd]
      exact ⟨rfl, rfl⟩

/-- Python `response == True` holds exactly for the typed projection `True`. -/
theorem isTrueResp_eq_true_iff (r : ProcessResult Bool) :
    isTrueResp r = true ↔ r = .typed true := by
  cases r <;> simp [isTrueResp]

/-- A left fold of disjunction is the seed disjoined with `any`. -/
theorem foldl_or_eq (b : Bool) (l : List Bool) :
    l.foldl (fun a c => a || c) b = (b || l.any (fun x => x)) := by
  induction l generalizing b with
  | nil => simp
  | cons x xs ih =>
      rw [List.foldl_cons, ih (b || x), List.any_cons, Bool.or_assoc]

/-- Python `reduce(or, l)` agrees with `any` on every list this development
feeds it. -/
theorem reduceOr_eq_any (l : List Bool) :
    reduceOr l = l.any (fun x => x) := by
  cases l with
  | nil => rfl
  | cons x xs =>
      show xs.foldl (fun a b => a || b) x = (x :: xs).any (fun x => x)
      rw [foldl_or_eq, List.any_cons]

/-- No bit set in the list is the same as every position reading
false. -/
theorem reduceOr_eq_false_iff (l : List Bool) :
    reduceOr l = false ↔ ∀ i : Nat, l.getD i false = false := by
  rw [reduceOr_eq_any, List.any_eq_false]
  constructor
  · intro h i
    by_cases hi : i < l.length
    · have hm : l[i] ∈ l := List.getElem_mem hi
      have hf := h _ hm
      simp only [Bool.not_eq_true] at hf
      simp [List.getD, List.getElem?_eq_getElem hi, hf]
    · simp [List.getD, List.getElem?_eq_none (Nat.le_of_not_lt hi)]
  · intro h b hb
    obtain ⟨i, hi, rfl⟩ := List.mem_iff_getElem.mp hb
    have hf := h i
    simp only [List.getD, List.get?_eq_getElem?,
      List.getElem?_eq_getElem hi, Option.getD_some] at hf
    simp [hf]

/-- C7: on every run of `irrigate_zone` that returns (the raised
protocol mismatch aborts a run without returning), the returned
boolean is true exactly when the `ManuallyRunStation` dispatch yielded
the typed success value and the cached bitmask after the forced
refresh has the requested zone active; dispatch success with the zone
inactive afterwards yields false. -/
theorem irrigate_zone_success_iff (env1 env2 : Env) (c : Controller)
    (zone minutes : Nat) (b : Bool)
    (hret : (irrigate_zone env1 env2 c zone minutes).1 = .ret b) :
    b = true ↔
      processCommand env1 (fun _ => true) "ManuallyRunStation"
          [zone, minutes] = .typed true ∧
      (irrigate_zone env1 env2 c zone minutes).2.zones.active zone
        = true := by
  unfold irrigate_zone at hret ⊢
  cases hpc1 : processCommand env1 (fun _ => true) "ManuallyRunStation"
      [zone, minutes] with
  | mismatch e a d =>
      rw [hpc1] at hret
      exact absurd hret (by simp)
  | noResponse =>
      rw [hpc1] at hret
      rcases hu : update_irrigation_state env2 defaultPage c with ⟨r, c1⟩
      cases r <;> simp_all [isTrueResp]
  | typed v =>
      rw [hpc1] at hret
      rcases hu : update_irrigation_state env2 defaultPage c with ⟨r, c1⟩
      cases r <;> simp_all [isTrueResp] <;> (subst hret; simp)
  | raw m =>
      rw [hpc1] at hret
      rcases hu : update_irrigation_state env2 defaultPage c with ⟨r, c1⟩
      cases r <;> simp_all [isTrueResp]

theorem irrigate_zone_success_iff_witness :
    (false = true ↔
      processCommand envW (fun _ => true) "ManuallyRunStation" [0, 5]
        = .typed true ∧
      (irrigate_zone envW envW (initController 20) 0 5).2.zones.active 0
        = true) :=
  irrigate_zone_success_iff envW envW (initController 20) 0 5 false rfl

/-- C8: on every run of `stop_irrigation` that returns (the raised
protocol mismatch aborts a run without returning), the returned
boolean is true exactly when the `StopIrrigation` dispatch yielded the
typed success value and, after the forced refresh, no position of the
cached bitmask reads active. -/
theorem stop_irrigation_success_iff (env1 env2 : Env) (c : Controller)
    (b : Bool)
    (hret : (stop_irrigation env1 env2 c).1 = .ret b) :
    b = true ↔
      processCommand env1 (fun _ => true) "StopIrrigation" []
        = .typed true ∧
      ∀ z : Nat, (stop_irrigation env1 env2 c).2.zones.active z
        = false := by
  unfold stop_irrigation at hret ⊢
  cases hpc1 : processCommand env1 (fun _ => true) "StopIrrigation" [] with
  | mismatch e a d =>
      rw [hpc1] at hret
      exact absurd hret (by simp)
  | noResponse =>
      rw [hpc1] at hret
      rcases hu : update_irrigation_state env2 defaultPage c with ⟨r, c1⟩
      cases r <;> simp_all [isTrueResp, States.active]
  | typed v =>
      rw [hpc1] at hret
      rcases hu : update_irrigation_state env2 defaultPage c with ⟨r, c1⟩
      cases r <;>
          simp_all [isTrueResp, States.active] <;>
        (subst hret; simp [reduceOr_eq_false_iff])
  | raw m =>
      rw [hpc1] at hret
      rcases hu : update_irrigation_state env2 defaultPage c with ⟨r, c1⟩
      cases r <;> simp_all [isTrueResp, States.active]

theorem stop_irrigation_success_iff_witness :
    (true = true ↔
      processCommand envW (fun _ => true) "StopIrrigation" []
        = .typed true ∧
      ∀ z : Nat, (stop_irrigation envW envW (initController 20)).2.zones.active z
        = false) :=
  stop_irrigation_success_iff envW envW (initController 20) true rfl

/-- A controller caching the zone mask "80" (zone 0 active) with both
timestamps stale. -/
def cEightyW : Controller :=
  { zones := statesOfHex "80".data
    rain_sensor := none
    update_delay := 20
    zone_update_time := none
    sensor_update_time := none }

/-- C5 counterexample: the zone refresh forced by `irrigate_zone` can
fail without the cached zone state being reset to "00": with a
transport yielding no response the refresh obtains no typed result,
yet the cached mask stays "80". -/
theorem refresh_reset_counterexample :
    (update_irrigation_state envNoneW defaultPage cEightyW).1
        = .noResponse ∧
    (irrigate_zone envNoneW envNoneW cEightyW 0 5).2.zones
        = statesOfHex "80".data ∧
    statesOfHex "80".data ≠ statesOfHex "00".data :=
  ⟨rfl, rfl, by decide⟩

/-- C5 amended: for refreshes issued by the two cache reads that
complete without raising but obtain no typed result (no response, or a
raw mapping on a type-tag mismatch) the claim holds — `get_zone_state`
resets the cached mask to `States("00")` and `get_rain_sensor_state`
resets the cached flag to `None`, both leaving their timestamp
untouched; on success the cached value is replaced wholesale by the
new value and the timestamp set. A refresh that raises the protocol
mismatch propagates the exception with the cached state and timestamp
unchanged, and refreshes forced by `irrigate_zone` and
`stop_irrigation` never reset the mask on failure. -/
theorem cache_refresh_reset (env : Env) (c : Controller) (now : ℚ)
    (zone page : Nat)
    (hstaleZ : check_delay c.zone_update_time c.update_delay now = true)
    (hstaleS : check_delay c.sensor_update_time c.update_delay now
                 = true) :
    ((processCommand env stationsActiveMap "CurrentStationsActive" [page]
          = .noResponse ∨
      (∃ m, processCommand env stationsActiveMap "CurrentStationsActive"
          [page] = .raw m)) →
      (get_zone_state env now c zone page).1 = .ret none ∧
      (get_zone_state env now c zone page).2.1.zones
          = statesOfHex "00".data ∧
      (get_zone_state env now c zone page).2.1.zone_update_time
          = c.zone_update_time) ∧
    (∀ st, processCommand env stationsActiveMap "CurrentStationsActive"
          [page] = .typed st →
      (get_zone_state env now c zone page).2.1.zones = st ∧
      (get_zone_state env now c zone page).2.1.zone_update_time
          = some now) ∧
    (∀ e a d, processCommand env stationsActiveMap "CurrentStationsActive"
          [page] = .mismatch e a d →
      (get_zone_state env now c zone page).1 = .exn e a d ∧
      (get_zone_state env now c zone page).2.1 = c) ∧
    ((processCommand env sensorStateMap "CurrentRainSensorState" []
          = .noResponse ∨
      (∃ m, processCommand env sensorStateMap "CurrentRainSensorState" []
          = .raw m)) →
      (get_rain_sensor_state env now c).1 = .ret none ∧
      (get_rain_sensor_state env now c).2.1.rain_sensor = none ∧
      (get_rain_sensor_state env now c).2.1.sensor_update_time
          = c.sensor_update_time) ∧
    (∀ b, processCommand env sensorStateMap "CurrentRainSensorState" []
          = .typed b →
      (get_rain_sensor_state env now c).2.1.rain_sensor = some b ∧
      (get_rain_sensor_state env now c).2.1.sensor_update_time
          = some now) ∧
    (∀ e a d, processCommand env sensorStateMap "CurrentRainSensorState" []
          = .mismatch e a d →
      (get_rain_sensor_state env now c).1 = .exn e a d ∧
      (get_rain_sensor_state env now c).2.1 = c) := by
  refine ⟨?_, ?_, ?_, ?_, ?_, ?_⟩
  · intro hfail
    unfold get_zone_state
    rw [if_pos hstaleZ]
    rcases hfail with hpc | ⟨m, hpc⟩ <;>
      simp [update_irrigation_state, hpc]
  · intro st hpc
    unfold get_zone_state
    rw [if_pos hstaleZ]
    simp [update_irrigation_state, hpc]
  · intro e a d hpc
    unfold get_zone_state
    rw [if_pos hstaleZ]
    simp [update_irrigation_state, hpc]
  · intro hfail
    unfold get_rain_sensor_state
    rw [if_pos hstaleS]
    rcases hfail with hpc | ⟨m, hpc⟩ <;> simp [hpc]
  · intro b hpc
    unfold get_rain_sensor_state
    rw [if_pos hstaleS]
    simp [hpc]
  · intro e a d hpc
    unfold get_rain_sensor_state
    rw [if_pos hstaleS]
    simp [hpc]

theorem cache_refresh_reset_witness :
    (get_zone_state envNoneW 0 (initController 20) 0 0).1 = .ret none ∧
    (get_zone_state envNoneW 0 (initController 20) 0 0).2.1.zones
        = statesOfHex "00".data ∧
    (get_zone_state envNoneW 0 (initController 20) 0 0).2.1.zone_update_time
        = none :=
  (cache_refresh_reset envNoneW (initController 20) 0 0 0 rfl rfl).1
    (Or.inl rfl)

/-- C6 counterexample: when the refresh fails without raising (no
response), `get_zone_state` does not re-apply the requested zone's bit
from the (reset) cached bitmask — the bit reads false while the call
returns `None`. -/
theorem zone_state_reapply_counterexample :
    (get_zone_state envNoneW 0 (initController 20) 0 0).1 = .ret none ∧
    (get_zone_state envNoneW 0 (initController 20) 0 0).2.1.zones.active 0
        = false ∧
    (get_zone_state envNoneW 0 (initController 20) 0 0).1 ≠
      .ret (some ((get_zone_state envNoneW 0
        (initController 20) 0 0).2.1.zones.active 0)) :=
  ⟨rfl, rfl, fun h => Option.noConfusion (OpOutcome.ret.inj h)⟩

/-- C6 amended: `get_zone_state` returns the requested zone's bit of
the cached bitmask on a fresh read and after a successful refresh;
when the refresh completes but obtains no typed result it returns
`None` (unknown) without consulting the bit; when the refresh raises
the protocol mismatch, the exception propagates and nothing is
returned. Among returned values the three-way outcome
true / false / unknown is preserved. -/
theorem zone_state_three_way (env : Env) (c : Controller) (now : ℚ)
    (zone page : Nat) :
    (check_delay c.zone_update_time c.update_delay now = false →
      (get_zone_state env now c zone page).1
        = .ret (some ((get_zone_state env now c zone page).2.1.zones.active
                  zone))) ∧
    (∀ st, processCommand env stationsActiveMap "CurrentStationsActive"
          [page] = .typed st →
      (get_zone_state env now c zone page).1
        = .ret (some ((get_zone_state env now c zone page).2.1.zones.active
                  zone))) ∧
    ((check_delay c.zone_update_time c.update_delay now = true ∧
      (processCommand env stationsActiveMap "CurrentStationsActive" [page]
          = .noResponse ∨
       ∃ m, processCommand env stationsActiveMap "CurrentStationsActive"
          [page] = .raw m)) →
      (get_zone_state env now c zone page).1 = .ret none) ∧
    (∀ e a d, check_delay c.zone_update_time c.update_delay now = true →
      processCommand env stationsActiveMap "CurrentStationsActive" [page]
          = .mismatch e a d →
      (get_zone_state env now c zone page).1 = .exn e a d) := by
  refine ⟨?_, ?_, ?_, ?_⟩
  · intro hf
    simp [get_zone_state, hf]
  · intro st hpc
    unfold get_zone_state
    by_cases hd : check_delay c.zone_update_time c.update_delay now = true
    · rw [if_pos hd]
      simp [update_irrigation_state, hpc]
    · rw [if_neg hd]
  · rintro ⟨hd, hfail⟩
    unfold get_zone_state
    rw [if_pos hd]
    rcases hfail with hpc | ⟨m, hpc⟩ <;>
      simp [update_irrigation_state, hpc]
  · intro e a d hd hpc
    unfold get_zone_state
    rw [if_pos hd]
    simp [update_irrigation_state, hpc]

theorem zone_state_three_way_witness :
    (get_zone_state envNoneW 0 (initController 20) 1 0).1 = .ret none :=
  (zone_state_three_way envNoneW (initController 20) 0 1 0).2.2.1
    ⟨rfl, Or.inl rfl⟩

/-- Recognizer for hexadecimal digit characters. -/
def isHexDigitChar (c : Char) : Bool :=
  c.isDigit || ('A' ≤ c && c ≤ 'F') || ('a' ≤ c && c ≤ 'f')

/-- Every `hexChar` value is a `hexChar` of a digit below 16 (out of
range it degrades to the pad character '0'). -/
theorem hexChar_mem_range (n : Nat) : ∃ k, k < 16 ∧ hexChar n = hexChar k := by
  by_cases hn : n < 16
  · exact ⟨n, hn, rfl⟩
  · refine ⟨0, by omega, ?_⟩
    unfold hexChar
    rw [List.getD_eq_default]
    · rfl
    · have : ("0123456789ABCDEF".data).length = 16 := by decide
      omega

/-- Digits below 16 render as hexadecimal digit characters. -/
theorem isHexDigitChar_hexChar : ∀ k, k < 16 → isHexDigitChar (hexChar k) = true := by
  decide

/-- Every character the rendering helper emits is a `hexChar` of a
digit below 16. -/
theorem mem_hexDigitsAux (fuel n : Nat) :
    ∀ ch ∈ hexDigitsAux fuel n, ∃ k, k < 16 ∧ ch = hexChar k := by
  induction fuel generalizing n with
  | zero =>
      intro ch hch
      simp only [hexDigitsAux, List.mem_singleton] at hch
      subst hch
      exact hexChar_mem_range n
  | succ fuel ih =>
      intro ch hch
      unfold hexDigitsAux at hch
      by_cases hn : n < 16
      · rw [if_pos hn] at hch
        simp only [List.mem_singleton] at hch
        subst hch
        exact ⟨n, hn, rfl⟩
      · rw [if_neg hn] at hch
        rcases List.mem_append.mp hch with h1 | h2
        · exact ih (n / 16) ch h1
        · simp only [List.mem_singleton] at h2
          subst h2
          exact ⟨n % 16, Nat.mod_lt _ (by omega), rfl⟩

/-- Every character of the most significant byte slice is a
hexadecimal digit character. -/
theorem mem_msByte_hex (n : Nat) :
    ∀ ch ∈ msByte n, isHexDigitChar ch = true := by
  intro ch hch
  have hmem : ch ∈ hex8 n := List.take_subset _ _ hch
  rcases List.mem_append.mp hmem with h1 | h2
  · rw [List.eq_of_mem_replicate h1]
    decide
  · obtain ⟨k, hk, rfl⟩ := mem_hexDigitsAux n n ch h2
    exact isHexDigitChar_hexChar k hk

/-- The most significant byte slice always has exactly two
characters. -/
theorem length_msByte (n : Nat) : (msByte n).length = 2 := by
  unfold msByte hex8
  rw [List.length_take, List.length_append, List.length_replicate]
  omega

/-- Expanding a hex string yields four bits per digit. -/
theorem length_flatten_bits (s : List Char) :
    ((s.map hexDigitBits).flatten).length = 4 * s.length := by
  induction s with
  | nil => rfl
  | cons c cs ih =>
      have hb : (hexDigitBits c).length = 4 := rfl
      rw [List.map_cons, List.flatten_cons, List.length_append, hb, ih,
        List.length_cons]
      ring

/-- The bit sequence of a bitmask built from a hex string has four
bits per digit. -/
theorem length_states_statesOfHex (s : List Char) :
    (statesOfHex s).states.length = 4 * s.length :=
  length_flatten_bits s

/-- A typed `_process_command` result is always the image of some
decoded mapping under the supplied mapping function. -/
theorem processCommand_typed_eq {α : Type} (env : Env)
    (funct : Mapping → α) (cmd : String) (args : List Nat) (v : α)
    (h : processCommand env funct cmd args = .typed v) :
    ∃ m : Mapping, v = funct m := by
  unfold processCommand at h
  cases hc : command env cmd args with
  | noResponse =>
      rw [hc] at h
      exact absurd h (by simp)
  | mismatch e a d =>
      rw [hc] at h
      exact absurd h (by simp)
  | ok m =>
      rw [hc] at h
      dsimp only at h
      split at h
      · exact ⟨m, (ProcessResult.typed.inj h).symm⟩
      · exact absurd h (by simp)

/-- The zone mask after `_update_irrigation_state` is the previous
mask or the mask built from the most significant byte of a decoded
`activeStations` field. -/
theorem uis_zones_cases (env : Env) (page : Nat) (c : Controller) :
    (update_irrigation_state env page c).2.zones = c.zones ∨
    ∃ n : Nat, (update_irrigation_state env page c).2.zones
      = statesOfHex (msByte n) := by
  unfold update_irrigation_state
  cases hpc : processCommand env stationsActiveMap
      "CurrentStationsActive" [page] with
  | typed st =>
      right
      obtain ⟨m, rfl⟩ := processCommand_typed_eq _ _ _ _ _ hpc
      exact ⟨m.fields "activeStations", rfl⟩
  | noResponse => exact Or.inl rfl
  | mismatch e a d => exact Or.inl rfl
  | raw m => exact Or.inl rfl

/-- Helper: `get_rain_sensor_state` never touches the zone mask (helper shared
by the invariant proof). -/
theorem sensorRead_zones_eq (env : Env) (now : ℚ) (c : Controller) :
    (get_rain_sensor_state env now c).2.1.zones = c.zones := by
  unfold get_rain_sensor_state
  by_cases hd : check_delay c.sensor_update_time c.update_delay now = true
  · rw [if_pos hd]
    cases processCommand env sensorStateMap
        "CurrentRainSensorState" [] <;> rfl
  · rw [if_neg hd]

/-- Helper: after `get_zone_state` the zone mask is the previous one
(fresh read, or a propagated mismatch), the reset "00" mask, or a mask
built from a most significant byte slice. -/
theorem get_zone_state_zones_cases (env : Env) (now : ℚ)
    (c : Controller) (zone page : Nat) :
    (get_zone_state env now c zone page).2.1.zones = c.zones ∨
    (get_zone_state env now c zone page).2.1.zones
      = statesOfHex "00".data ∨
    ∃ n : Nat, (get_zone_state env now c zone page).2.1.zones
      = statesOfHex (msByte n) := by
  unfold get_zone_state
  by_cases hd : check_delay c.zone_update_time c.update_delay now = true
  · rw [if_pos hd]
    cases hpc : processCommand env stationsActiveMap
        "CurrentStationsActive" [page] with
    | typed st =>
        obtain ⟨m, rfl⟩ := processCommand_typed_eq _ _ _ _ _ hpc
        right; right
        refine ⟨m.fields "activeStations", ?_⟩
        simp [update_irrigation_state, hpc]
        rfl
    | mismatch e a d =>
        left
        simp [update_irrigation_state, hpc]
    | noResponse =>
        right; left
        simp [update_irrigation_state, hpc]
    | raw m =>
        right; left
        simp [update_irrigation_state, hpc]
  · rw [if_neg hd]
    exact Or.inl rfl

/-- Helper: after `irrigate_zone` the zone mask is the previous one or
a mask built from a most significant byte slice. -/
theorem irrigate_zone_zones_cases (env1 env2 : Env) (c : Controller)
    (zone minutes : Nat) :
    (irrigate_zone env1 env2 c zone minutes).2.zones = c.zones ∨
    ∃ n : Nat, (irrigate_zone env1 env2 c zone minutes).2.zones
      = statesOfHex (msByte n) := by
  unfold irrigate_zone
  cases hpc1 : processCommand env1 (fun _ => true) "ManuallyRunStation"
      [zone, minutes] with
  | mismatch e a d => exact Or.inl rfl
  | noResponse =>
      rcases hu : update_irrigation_state env2 defaultPage c with ⟨r, c1⟩
      have hz := uis_zones_cases env2 defaultPage c
      rw [hu] at hz
      cases r <;> simpa using hz
  | typed v =>
      rcases hu : update_irrigation_state env2 defaultPage c with ⟨r, c1⟩
      have hz := uis_zones_cases env2 defaultPage c
      rw [hu] at hz
      cases r <;> simpa using hz
  | raw m =>
      rcases hu : update_irrigation_state env2 defaultPage c with ⟨r, c1⟩
      have hz := uis_zones_cases env2 defaultPage c
      rw [hu] at hz
      cases r <;> simpa using hz

/-- Helper: after `stop_irrigation` the zone mask is the previous one
or a mask built from a most significant byte slice. -/
theorem stop_irrigation_zones_cases (env1 env2 : Env) (c : Controller) :
    (stop_irrigation env1 env2 c).2.zones = c.zones ∨
    ∃ n : Nat, (stop_irrigation env1 env2 c).2.zones
      = statesOfHex (msByte n) := by
  unfold stop_irrigation
  cases hpc1 : processCommand env1 (fun _ => true) "StopIrrigation" [] with
  | mismatch e a d => exact Or.inl rfl
  | noResponse =>
      rcases hu : update_irrigation_state env2 defaultPage c with ⟨r, c1⟩
      have hz := uis_zones_cases env2 defaultPage c
      rw [hu] at hz
      cases r <;> simpa using hz
  | typed v =>
      rcases hu : update_irrigation_state env2 defaultPage c with ⟨r, c1⟩
      have hz := uis_zones_cases env2 defaultPage c
      rw [hu] at hz
      cases r <;> simpa using hz
  | raw m =>
      rcases hu : update_irrigation_state env2 defaultPage c with ⟨r, c1⟩
      have hz := uis_zones_cases env2 defaultPage c
      rw [hu] at hz
      cases r <;> simpa using hz

/-- The controller states reachable through the public cache and
irrigation operations, starting from a freshly constructed
controller. -/
inductive Reachable : Controller → Prop where
  | init (update_delay : ℚ) : Reachable (initController update_delay)
  | zoneRead (env : Env) (now : ℚ) (zone page : Nat) (c : Controller) :
      Reachable c → Reachable (get_zone_state env now c zone page).2.1
  | sensorRead (env : Env) (now : ℚ) (c : Controller) :
      Reachable c → Reachable (get_rain_sensor_state env now c).2.1
  | irrigate (env1 env2 : Env) (zone minutes : Nat) (c : Controller) :
      Reachable c → Reachable (irrigate_zone env1 env2 c zone minutes).2
  | stop (env1 env2 : Env) (c : Controller) :
      Reachable c → Reachable (stop_irrigation env1 env2 c).2

/-- The shape every value assigned to the `zones` field has: a bitmask
built from a two-hex-digit string that is either "00" or the most
significant byte of a rendered `activeStations` value. -/
def ZonesInvariant (st : States) : Prop :=
  ∃ s : List Char, st = statesOfHex s ∧ s.length = 2 ∧
    (∀ ch ∈ s, isHexDigitChar ch = true) ∧
    (s = "00".data ∨ ∃ n : Nat, s = msByte n)

/-- The "00" mask satisfies the invariant shape. -/
theorem zonesInvariant_zero : ZonesInvariant (statesOfHex "00".data) :=
  ⟨"00".data, rfl, by decide, by decide, Or.inl rfl⟩

/-- A mask built from a most significant byte slice satisfies the
invariant shape. -/
theorem zonesInvariant_msByte (n : Nat) :
    ZonesInvariant (statesOfHex (msByte n)) :=
  ⟨msByte n, rfl, length_msByte n, mem_msByte_hex n, Or.inr ⟨n, rfl⟩⟩

/-- C9: every reachable controller holds a zone mask built from
exactly a two-hex-digit string — "00" or the most significant byte of
the rendered `activeStations` field — so the cached mask always covers
exactly 8 zone bits. -/
theorem zones_invariant (c : Controller) (h : Reachable c) :
    ZonesInvariant c.zones ∧ c.zones.states.length = 8 := by
  have main : ZonesInvariant c.zones := by
    induction h with
    | init d => exact zonesInvariant_zero
    | zoneRead env now zone page c hc ih =>
        rcases get_zone_state_zones_cases env now c zone page with
          hsame | hzero | ⟨n, hnew⟩
        · rw [hsame]
          exact ih
        · rw [hzero]
          exact zonesInvariant_zero
        · rw [hnew]
          exact zonesInvariant_msByte n
    | sensorRead env now c hc ih =>
        rw [sensorRead_zones_eq]
        exact ih
    | irrigate env1 env2 zone minutes c hc ih =>
        rcases irrigate_zone_zones_cases env1 env2 c zone minutes with
          hsame | ⟨n, hnew⟩
        · rw [hsame]
          exact ih
        · rw [hnew]
          exact zonesInvariant_msByte n
    | stop env1 env2 c hc ih =>
        rcases stop_irrigation_zones_cases env1 env2 c with
          hsame | ⟨n, hnew⟩
        · rw [hsame]
          exact ih
        · rw [hnew]
          exact zonesInvariant_msByte n
  refine ⟨main, ?_⟩
  obtain ⟨s, hst, hlen, -, -⟩ := main
  rw [hst, length_states_statesOfHex, hlen]

theorem zones_invariant_witness :
    ZonesInvariant (initController 20).zones ∧
    (initController 20).zones.states.length = 8 :=
  zones_invariant (initController 20) (Reachable.init 20)

end PyRainbird
